import Mathlib

/-!
Verification development for the layout / scales state module of a
multi-panel chart UI (`src/assets/src/scripts/components/graph/state/layout.js`
and the scales module known through its test file).

The JavaScript code is shallowly embedded:

* JS numbers are idealized as exact rationals `ℚ` (see the binary64 side
  model below, used where the distinction between exact arithmetic and
  IEEE-754 double arithmetic decides a property);
* a JS field that can hold `undefined` is modelled by `JSVal.undef` or
  `JSOpt.undef`; `null` by `JSOpt.null`;
* a JS expression that can throw a `TypeError` (a property access on
  `undefined`) is modelled in the `Except JSError` monad;
* JS objects are open records, so a payload object is one record type
  `PayloadObj` whose absent fields read as `undefined`.
-/

namespace GraphLayout

/-- A JS primitive value as it can occur in this state of this module:
a number (idealized as an exact rational), a string (dates travel through
this module opaquely), or `undefined`. -/
inductive JSVal where
  | num (q : ℚ)
  | str (s : String)
  | undef
deriving DecidableEq

/-- A JS field that may be `undefined`, `null`, or hold a value. -/
inductive JSOpt (α : Type) where
  | undef
  | null
  | val (a : α)
deriving DecidableEq

/-- Whether the field holds no value: `true` (it is `undefined` or `null`);
the spec calls both situations "absent". -/
def JSOpt.isAbsent {α : Type} : JSOpt α → Bool
  | .val _ => false
  | _ => true

/-- Whether the field holds a value. -/
def JSOpt.isVal {α : Type} : JSOpt α → Bool
  | .val _ => true
  | _ => false

/-- The one JS error relevant here: a `TypeError` from reading a property
of `undefined` (or of `null`). -/
inductive JSError where
  | typeError
deriving DecidableEq

/-- The constant `MOUNT_POINT` of layout.js (line 4). -/
def MOUNT_POINT : String := "components/graph/layout"

/-- Action-type constant `GRAPH_SIZE_SET` (layout.js line 5). -/
def GRAPH_SIZE_SET : String := MOUNT_POINT ++ "/GRAPH_SIZE_SET"

/-- Action-type constant `GRAPH_SELECTION_RECT_SET` (layout.js line 6). -/
def GRAPH_SELECTION_RECT_SET : String := MOUNT_POINT ++ "/GRAPH_SELECTION_RECT_SET"

/-- Action-type constant `GRAPH_SELECTION_RECT_CLEAR` (layout.js line 7). -/
def GRAPH_SELECTION_RECT_CLEAR : String := MOUNT_POINT ++ "/GRAPH_SELECTION_RECT_CLEAR"

/-- Action-type constant `VIEWPORT_RESET` (layout.js line 8). -/
def VIEWPORT_RESET : String := MOUNT_POINT ++ "/VIEWPORT_RESET"

/-- Action-type constant `VIEWPORT_SET` (layout.js line 9). -/
def VIEWPORT_SET : String := MOUNT_POINT ++ "/VIEWPORT_SET"

/-- The `graphSize` record stored by the reducer: fields `width`, `height`.
The fields are `JSVal` because the reducer copies them from the payload
without validation, so they can be `undefined`. -/
structure GraphSize where
  width : JSVal
  height : JSVal
deriving DecidableEq

/-- The `selectionRect` record stored by the reducer. -/
structure SelRect where
  top : JSVal
  left : JSVal
  bottom : JSVal
  right : JSVal
deriving DecidableEq

/-- The `viewport` record stored by the reducer. -/
structure ViewportVal where
  startDate : JSVal
  endDate : JSVal
deriving DecidableEq

/-- The layout sub-state living under `MOUNT_POINT`: fields `graphSize`,
`selectionRect`, `viewport`, each initially not present (`undefined`). -/
structure LayoutState where
  graphSize : JSOpt GraphSize := .undef
  selectionRect : JSOpt SelRect := .undef
  viewport : JSOpt ViewportVal := .undef
deriving DecidableEq

/-- Initial state of the reducer: the empty object `\x7b\x7d`. -/
def emptyLayout : LayoutState := {}

/-- A JS payload object. JS objects are open, so one record covers every
payload shape used by this module; a field that a given action creator
does not set reads as `undefined`, exactly as in JS. -/
structure PayloadObj where
  width : JSVal := .undef
  height : JSVal := .undef
  top : JSVal := .undef
  left : JSVal := .undef
  bottom : JSVal := .undef
  right : JSVal := .undef
  startDate : JSVal := .undef
  endDate : JSVal := .undef
deriving DecidableEq

/-- An action object: a `type` string and an optional `payload` property
(`none` models an action with no `payload` property, so that reading a
field of the payload throws). -/
structure Action where
  type : String
  payload : Option PayloadObj := none
deriving DecidableEq

/-- Action creator `setViewport` (layout.js lines 16–24): destructures
`startDate`/`endDate` from its argument and emits a `VIEWPORT_SET` action
whose payload has exactly those two fields. -/
def setViewport (o : PayloadObj) : Action :=
  { type := VIEWPORT_SET,
    payload := some { startDate := o.startDate, endDate := o.endDate } }

/-- Action creator `resetViewport` (layout.js lines 30–34): emits a
`VIEWPORT_RESET` action with no payload. -/
def resetViewport : Action :=
  { type := VIEWPORT_RESET }

/-- Action creator `setContainerSize` (layout.js lines 47–55). -/
def setContainerSize (o : PayloadObj) : Action :=
  { type := GRAPH_SIZE_SET,
    payload := some { width := o.width, height := o.height } }

/-- Action creator `setSelectionRect` (layout.js lines 74–84). -/
def setSelectionRect (o : PayloadObj) : Action :=
  { type := GRAPH_SELECTION_RECT_SET,
    payload := some { top := o.top, left := o.left,
                      bottom := o.bottom, right := o.right } }

/-- Action creator `clearSelectionRect` (layout.js lines 86–90). -/
def clearSelectionRect : Action :=
  { type := GRAPH_SELECTION_RECT_CLEAR }

/-- The global Redux state as seen by the selectors: the layout sub-state
stored under the key `MOUNT_POINT`, which may be missing (`undef`). -/
structure GlobalState where
  layout : JSOpt LayoutState
deriving DecidableEq

/-- Selector `getViewport` (layout.js line 40):
`state[MOUNT_POINT].viewport`. Reading `.viewport` throws a `TypeError`
when the mount point is missing. -/
def getViewport (s : GlobalState) : Except JSError (JSOpt ViewportVal) :=
  match s.layout with
  | .val l => .ok l.viewport
  | _ => .error .typeError

/-- Selector `getContainerSize` (layout.js lines 62–65):
`state[MOUNT_POINT].graphSize || \x7bwidth: 0, height: 0\x7d`. The `||`
replaces a falsy (`undefined` or `null`) `graphSize` by the default;
reading `.graphSize` throws when the mount point is missing. -/
def getContainerSize (s : GlobalState) : Except JSError GraphSize :=
  match s.layout with
  | .val l =>
    .ok (match l.graphSize with
      | .val g => g
      | _ => { width := .num 0, height := .num 0 })
  | _ => .error .typeError

/-- Selector `getSelectionRect` (layout.js line 96):
`state[MOUNT_POINT].selectionRect`. -/
def getSelectionRect (s : GlobalState) : Except JSError (JSOpt SelRect) :=
  match s.layout with
  | .val l => .ok l.selectionRect
  | _ => .error .typeError

/-- A numeric container size, for the position and scale calculations
(the result function of `getChartPosition` receives the value produced by
`getContainerSize`; the claims evaluate it on numeric sizes). -/
structure ContainerSize where
  width : ℚ
  height : ℚ
deriving DecidableEq

/-- A chart-position rectangle. -/
structure Rect where
  x : ℚ
  y : ℚ
  width : ℚ
  height : ℚ
deriving DecidableEq

/-- The result function of `getChartPosition` (layout.js lines 105–129):
the `switch (chartType)` mapping a container size to the panel rectangle;
a `chartType` matching no case falls through and the function returns
`undefined`, modelled as `none`. -/
def chartPosition (chartType : String) (size : ContainerSize) : Option Rect :=
  if chartType = "main" then
    some { x := 0, y := 0, width := size.width, height := size.height * 0.8 }
  else if chartType = "panner" then
    some { x := 0, y := size.height * 0.8, width := size.width,
           height := size.height * 0.2 }
  else if chartType = "lithography" then
    some { x := size.width * 0.9, y := 0, width := size.width * 0.1,
           height := size.height * 0.8 }
  else
    none

/-- The reducer (layout.js lines 138–179). Each recognized `SET` case reads
fields of `action.payload`; when the action has no `payload` property this
access throws a `TypeError` (`Except.error`), exactly as in JS. The
`...state` spreads are the record updates; the `default` arm returns the
input state itself. -/
def reducer (state : LayoutState) (action : Action) : Except JSError LayoutState :=
  if action.type = GRAPH_SIZE_SET then
    match action.payload with
    | some p => .ok { state with
        graphSize := .val { width := p.width, height := p.height } }
    | none => .error .typeError
  else if action.type = GRAPH_SELECTION_RECT_SET then
    match action.payload with
    | some p => .ok { state with
        selectionRect := .val { top := p.top, left := p.left,
                                bottom := p.bottom, right := p.right } }
    | none => .error .typeError
  else if action.type = GRAPH_SELECTION_RECT_CLEAR then
    .ok { state with selectionRect := .null }
  else if action.type = VIEWPORT_SET then
    match action.payload with
    | some p => .ok { state with
        viewport := .val { startDate := p.startDate, endDate := p.endDate } }
    | none => .error .typeError
  else if action.type = VIEWPORT_RESET then
    .ok { state with viewport := .null }
  else
    .ok state

/-!
### Binary64 side model

The embedding above idealizes JS numbers as exact rationals. One spec
property asserts an *exact* arithmetic identity, whose truth depends on
the arithmetic JS actually uses: IEEE-754 binary64. The definitions below
model binary64 rounding (round to nearest, ties to even) on the normal
range, as a function on the rationals that are the exact values of
doubles; they are used only to evaluate that identity at concrete inputs.
-/

/-- Round a rational to an integer, to nearest, ties to even. -/
def roundHalfEven (x : ℚ) : ℤ :=
  let f := ⌊x⌋
  if x - f < 1 / 2 then f
  else if 1 / 2 < x - f then f + 1
  else if f % 2 = 0 then f else f + 1

/-- Walk the exponent upward while `2 ^ (e + 1) ≤ q` still holds. -/
def expUp (fuel : ℕ) (e : ℤ) (q : ℚ) : ℤ :=
  match fuel with
  | 0 => e
  | f + 1 => if (2 : ℚ) ^ (e + 1) ≤ q then expUp f (e + 1) q else e

/-- Walk the exponent downward while `q < 2 ^ e` still holds. -/
def expDown (fuel : ℕ) (e : ℤ) (q : ℚ) : ℤ :=
  match fuel with
  | 0 => e
  | f + 1 => if q < (2 : ℚ) ^ e then expDown f (e - 1) q else e

/-- The exponent `e` with `2 ^ e ≤ q < 2 ^ (e + 1)`, for `q > 0`, found by
direct comparison; the fuel 1100 covers the whole binary64 exponent
range. -/
def qfloorLog2 (q : ℚ) : ℤ :=
  if 1 ≤ q then expUp 1100 0 q else expDown 1100 0 q

/-- Binary64 rounding of a positive rational: scale so that the
significand occupies 53 bits, round to nearest (ties to even), and scale
back. Overflow and subnormals are outside the range used here. -/
def round64pos (q : ℚ) : ℚ :=
  let scale : ℤ := 52 - qfloorLog2 q
  (roundHalfEven (q * (2 : ℚ) ^ scale) : ℚ) * (2 : ℚ) ^ (-scale)

/-- Binary64 rounding of a rational. -/
def round64 (q : ℚ) : ℚ :=
  if q = 0 then 0
  else if 0 < q then round64pos q
  else -(round64pos (-q))

/-- Binary64 multiplication: exact product, then one rounding. -/
def dmul (a b : ℚ) : ℚ := round64 (a * b)

/-- Binary64 addition: exact sum, then one rounding. -/
def dadd (a b : ℚ) : ℚ := round64 (a + b)

/-- The double denoted by the literal `0.8` in the source. -/
def lit08 : ℚ := round64 (8 / 10)

/-- The double denoted by the literal `0.2` in the source. -/
def lit02 : ℚ := round64 (2 / 10)

/-- The `main` panel height as the source computes it
(`size.height * 0.8`, layout.js line 112) in binary64 arithmetic. -/
def dMainHeight (h : ℚ) : ℚ := dmul h lit08

/-- The `panner` panel height as the source computes it
(`size.height * 0.2`, layout.js line 119) in binary64 arithmetic. -/
def dPannerHeight (h : ℚ) : ℚ := dmul h lit02

/-!
### Scales

Modelled from the spec: the scales module
(`src/assets/src/scripts/components/graph/state/scales.js`) is not present
under `src/`; only its test file `scales.spec.js` is. Per the spec (§4.3)
and the expectations of the test, `getScaleX` builds a linear scale with the
given domain and range `[0, containerSize.width]`, and `getScaleY` the
same with range `[0, containerSize.height]`; each scale exposes its
configured domain and range. The result functions of the two selectors
are embedded as pure functions of the `(domain, containerSize)` pair.
-/

/-- Modelled from the spec: a linear scale, holding its configured domain
and range, which it exposes for inspection. -/
structure Scale where
  domain : ℚ × ℚ
  range : ℚ × ℚ
deriving DecidableEq

/-- Modelled from the spec: the linear mapping of a scale (domain value to
pixel); collapses when the domain is degenerate (division by zero yields 0
in `ℚ`). -/
def Scale.toPixel (s : Scale) (x : ℚ) : ℚ :=
  s.range.1 + (x - s.domain.1) * (s.range.2 - s.range.1) / (s.domain.2 - s.domain.1)

/-- Modelled from the spec: the result function of `getScaleX`, mapping a
domain onto the pixel range `[0, containerSize.width]`. -/
def getScaleX (domain : ℚ × ℚ) (size : ContainerSize) : Scale :=
  { domain := domain, range := (0, size.width) }

/-- Modelled from the spec: the result function of `getScaleY`, mapping a
domain onto the pixel range `[0, containerSize.height]`. -/
def getScaleY (domain : ℚ × ℚ) (size : ContainerSize) : Scale :=
  { domain := domain, range := (0, size.height) }

/-!
### Reference-identity model of the memoization

`getChartPosition` is `memoize(chartType => createSelector(getContainerSize,
size => ...))` (layout.js line 103). Its caching behaviour is about JS
*reference* identity, so it is modelled at reference level: a `Ref` pairs
a value with an allocation identifier; `===` on objects is identity of the
identifiers. The `createSelector` of `reselect` wraps the result function in two
single-slot caches, both comparing by `===`: an outer one on the selector
argument (the state) and an inner one on the dependency results (here the
single result of `getContainerSize`). `fast-memoize` caches the constructed
selector per `chartType` key. Fresh identifiers are drawn from an explicit
counter threaded through each call.
-/

/-- A JS object reference: an allocation identifier plus the value of the
object. Two references are `===` exactly when their identifiers coincide. -/
structure Ref (α : Type) where
  id : ℕ
  val : α
deriving DecidableEq

/-- The layout sub-state at reference level, as far as the position
selector reads it: its `graphSize` field either holds a reference to a
size object or is absent. -/
structure StateR where
  graphSize : Option (Ref ContainerSize)
deriving DecidableEq

/-- Selector `getContainerSize` at reference level: returns the stored `graphSize`
reference, or, when it is absent, a *freshly allocated* default object
(the object literal in `graphSize || \x7bwidth: 0, height: 0\x7d` is
constructed anew on every such call). Returns the result and the next
fresh identifier. -/
def getContainerSizeR (s : Ref StateR) (ctr : ℕ) : Ref ContainerSize × ℕ :=
  match s.val.graphSize with
  | some g => (g, ctr)
  | none => ({ id := ctr, val := { width := 0, height := 0 } }, ctr + 1)

/-- The two single-slot caches of a `reselect` selector: the outer slot
maps the last state argument (by identifier) to the last returned result;
the inner slot maps the last dependency result (the container-size
reference, by identifier) to the last computed output. -/
structure SelCell where
  outer : Option (ℕ × Ref (Option Rect)) := none
  inner : Option (ℕ × Ref (Option Rect)) := none
deriving DecidableEq

/-- A selector call that missed the outer cache: evaluate the dependency
`getContainerSize`, consult the inner cache by `===` on its result, and on
an inner miss compute the rectangle and allocate it as a fresh object. -/
def selectorMiss (chartType : String) (cell : SelCell) (ctr : ℕ)
    (s : Ref StateR) : Ref (Option Rect) × SelCell × ℕ :=
  let gp := getContainerSizeR s ctr
  match cell.inner with
  | some (gid, r) =>
    if gid = gp.1.id then
      (r, { outer := some (s.id, r), inner := cell.inner }, gp.2)
    else
      let r2 : Ref (Option Rect) :=
        { id := gp.2, val := chartPosition chartType gp.1.val }
      (r2, { outer := some (s.id, r2), inner := some (gp.1.id, r2) }, gp.2 + 1)
  | none =>
    let r2 : Ref (Option Rect) :=
      { id := gp.2, val := chartPosition chartType gp.1.val }
    (r2, { outer := some (s.id, r2), inner := some (gp.1.id, r2) }, gp.2 + 1)

/-- One call of the memoized selector `getChartPosition(chartType)` on a
state reference: hit the outer cache when the state is `===` the previous
argument, otherwise fall through to `selectorMiss`. -/
def selectorCall (chartType : String) (cell : SelCell) (ctr : ℕ)
    (s : Ref StateR) : Ref (Option Rect) × SelCell × ℕ :=
  match cell.outer with
  | some (sid, r) =>
    if sid = s.id then (r, cell, ctr)
    else selectorMiss chartType cell ctr s
  | none => selectorMiss chartType cell ctr s

/-- Lookup in the `fast-memoize` cache, keyed by the `chartType` string. -/
def memoLookup : List (String × ℕ) → String → Option ℕ
  | [], _ => none
  | (k, v) :: rest, key => if k = key then some v else memoLookup rest key

/-- One call of `getChartPosition` itself: `fast-memoize` returns the
cached selector instance for an already-seen `chartType`, and otherwise
constructs a fresh selector (identified by a fresh identifier) and caches
it. -/
def getChartPositionCall (cache : List (String × ℕ)) (ctr : ℕ)
    (chartType : String) : ℕ × List (String × ℕ) × ℕ :=
  match memoLookup cache chartType with
  | some fid => (fid, cache, ctr)
  | none => (ctr, (chartType, ctr) :: cache, ctr + 1)

/-!
## Evaluation lemmas for the reducer
-/

/-- The reducer on a `GRAPH_SIZE_SET` action with a payload object. -/
theorem reducer_eval_sizeSet (s : LayoutState) (p : PayloadObj) :
    reducer s { type := GRAPH_SIZE_SET, payload := some p } =
      .ok { s with graphSize := .val { width := p.width, height := p.height } } :=
  rfl

/-- The reducer on a `GRAPH_SIZE_SET` action with no payload property:
the `action.payload.width` access throws. -/
theorem reducer_eval_sizeSet_noPayload (s : LayoutState) :
    reducer s { type := GRAPH_SIZE_SET } = .error .typeError := rfl

/-- The reducer on a `GRAPH_SELECTION_RECT_SET` action with a payload. -/
theorem reducer_eval_rectSet (s : LayoutState) (p : PayloadObj) :
    reducer s { type := GRAPH_SELECTION_RECT_SET, payload := some p } =
      .ok { s with selectionRect := .val { top := p.top, left := p.left,
                                           bottom := p.bottom,
                                           right := p.right } } := rfl

/-- The reducer on a `GRAPH_SELECTION_RECT_SET` action with no payload. -/
theorem reducer_eval_rectSet_noPayload (s : LayoutState) :
    reducer s { type := GRAPH_SELECTION_RECT_SET } = .error .typeError := rfl

/-- The reducer on a `GRAPH_SELECTION_RECT_CLEAR` action (the payload,
present or not, is ignored). -/
theorem reducer_eval_rectClear (s : LayoutState) (pl : Option PayloadObj) :
    reducer s { type := GRAPH_SELECTION_RECT_CLEAR, payload := pl } =
      .ok { s with selectionRect := .null } := rfl

/-- The reducer on a `VIEWPORT_SET` action with a payload. -/
theorem reducer_eval_viewportSet (s : LayoutState) (p : PayloadObj) :
    reducer s { type := VIEWPORT_SET, payload := some p } =
      .ok { s with viewport := .val { startDate := p.startDate,
                                      endDate := p.endDate } } := rfl

/-- The reducer on a `VIEWPORT_SET` action with no payload. -/
theorem reducer_eval_viewportSet_noPayload (s : LayoutState) :
    reducer s { type := VIEWPORT_SET } = .error .typeError := rfl

/-- The reducer on a `VIEWPORT_RESET` action. -/
theorem reducer_eval_viewportReset (s : LayoutState) (pl : Option PayloadObj) :
    reducer s { type := VIEWPORT_RESET, payload := pl } =
      .ok { s with viewport := .null } := rfl

/-- The reducer on an action whose type is none of the five recognized
kinds: the `default` arm returns the input state itself. -/
theorem reducer_eval_unknown (s : LayoutState) (a : Action)
    (h1 : a.type ≠ GRAPH_SIZE_SET) (h2 : a.type ≠ GRAPH_SELECTION_RECT_SET)
    (h3 : a.type ≠ GRAPH_SELECTION_RECT_CLEAR) (h4 : a.type ≠ VIEWPORT_SET)
    (h5 : a.type ≠ VIEWPORT_RESET) :
    reducer s a = .ok s := by
  unfold reducer
  rw [if_neg h1, if_neg h2, if_neg h3, if_neg h4, if_neg h5]

/-!
## Theorems
-/

/-- C1: for every container size, the chart position calculator returns
exactly the fixed-ratio rectangles: for `main` x 0, y 0, the full width and
0.8 of the height; for `panner` x 0, y at 0.8 of the height, the full width
and 0.2 of the height; for `lithography` x at 0.9 of the width, y 0, 0.1 of
the width and 0.8 of the height. -/
theorem chartPosition_fixed_ratios (s : ContainerSize) :
    chartPosition "main" s =
      some { x := 0, y := 0, width := s.width, height := 0.8 * s.height }
    ∧ chartPosition "panner" s =
      some { x := 0, y := 0.8 * s.height, width := s.width,
             height := 0.2 * s.height }
    ∧ chartPosition "lithography" s =
      some { x := 0.9 * s.width, y := 0, width := 0.1 * s.width,
             height := 0.8 * s.height } := by
  refine ⟨?_, ?_, ?_⟩ <;> simp [chartPosition, mul_comm]

/-- C6: for every panel identifier outside the three recognized ones and
every container size, the chart position lookup returns the explicit empty
result (the switch falls through to `undefined`), never an error. -/
theorem chartPosition_unrecognized_none (chartType : String)
    (s : ContainerSize) (h1 : chartType ≠ "main") (h2 : chartType ≠ "panner")
    (h3 : chartType ≠ "lithography") :
    chartPosition chartType s = none := by
  simp [chartPosition, h1, h2, h3]

/-- Witness for C6 at the concrete identifier "brand" and size 30 by 40. -/
theorem chartPosition_unrecognized_none_witness :
    chartPosition "brand" { width := 30, height := 40 } = none :=
  chartPosition_unrecognized_none "brand" { width := 30, height := 40 }
    (by decide) (by decide) (by decide)

set_option maxRecDepth 4000 in
unseal Rat.mul Rat.add Rat.inv Rat.sub in
/-- C5 counterexample: the claim asserts the `main` height plus the
`panner` height equals the container height *exactly*; in the IEEE-754
binary64 arithmetic that JavaScript evaluates `size.height * 0.8`,
`size.height * 0.2` and their sum with, the sum at container height 7 is
one ulp above 7, so the exact equality fails on the code. -/
theorem dHeights_not_exact_at_seven :
    dadd (dMainHeight 7) (dPannerHeight 7) ≠ (7 : ℚ) := by decide

/-- C5 amended: in exact (idealized rational) arithmetic, for every
container size with nonnegative width and height, the `main` height plus
the `panner` height equals the container height. -/
theorem mainHeight_add_pannerHeight (s : ContainerSize)
    (hw : 0 ≤ s.width) (hh : 0 ≤ s.height) :
    ∃ rm rp : Rect, chartPosition "main" s = some rm
      ∧ chartPosition "panner" s = some rp
      ∧ rm.height + rp.height = s.height := by
  refine ⟨{ x := 0, y := 0, width := s.width, height := s.height * 0.8 },
    { x := 0, y := s.height * 0.8, width := s.width,
      height := s.height * 0.2 }, ?_, ?_, ?_⟩
  · simp [chartPosition]
  · simp [chartPosition]
  · show s.height * 0.8 + s.height * 0.2 = s.height
    ring

/-- Witness for the amended C5 at the concrete size 100 by 50. -/
theorem mainHeight_add_pannerHeight_witness :
    ∃ rm rp : Rect, chartPosition "main" { width := 100, height := 50 } = some rm
      ∧ chartPosition "panner" { width := 100, height := 50 } = some rp
      ∧ rm.height + rp.height = 50 :=
  mainHeight_add_pannerHeight { width := 100, height := 50 }
    (by norm_num) (by norm_num)

/-- C2: the reducer realizes the documented transition table: on the empty
state, a set-container-size action carrying width 100 and height 50 yields
a state whose graphSize holds width 100 and height 50; a
clear-selection-rect action yields a state whose selectionRect is absent;
a viewport-reset action yields a state whose viewport is absent; and every
action whose type is none of the five recognized kinds maps any state to
that very state (identity). -/
theorem reducer_transition_table :
    (∃ t, reducer emptyLayout
        { type := GRAPH_SIZE_SET,
          payload := some { width := .num 100, height := .num 50 } } = .ok t
      ∧ t.graphSize = .val { width := .num 100, height := .num 50 })
    ∧ (∀ s, ∃ t, reducer s { type := GRAPH_SELECTION_RECT_CLEAR } = .ok t
      ∧ t.selectionRect.isAbsent = true)
    ∧ (∀ s, ∃ t, reducer s { type := VIEWPORT_RESET } = .ok t
      ∧ t.viewport.isAbsent = true)
    ∧ (∀ s a, a.type ≠ GRAPH_SIZE_SET → a.type ≠ GRAPH_SELECTION_RECT_SET →
      a.type ≠ GRAPH_SELECTION_RECT_CLEAR → a.type ≠ VIEWPORT_SET →
      a.type ≠ VIEWPORT_RESET → reducer s a = .ok s) := by
  refine ⟨⟨_, reducer_eval_sizeSet emptyLayout _, rfl⟩,
    fun s => ⟨_, reducer_eval_rectClear s none, rfl⟩,
    fun s => ⟨_, reducer_eval_viewportReset s none, rfl⟩,
    fun s a h1 h2 h3 h4 h5 => reducer_eval_unknown s a h1 h2 h3 h4 h5⟩

/-- Witness for the C2 identity arm at the concrete action type "UNKNOWN". -/
theorem reducer_transition_table_witness :
    reducer emptyLayout { type := "UNKNOWN" } = .ok emptyLayout :=
  reducer_transition_table.2.2.2 emptyLayout { type := "UNKNOWN" }
    (by decide) (by decide) (by decide) (by decide) (by decide)

/-- C3 counterexample: the claim asserts no operation throws on any input,
including a recognized action whose payload is missing; in fact the
access `action.payload.width` of the reducer throws a `TypeError` on a
`GRAPH_SIZE_SET` action that has no payload property. -/
theorem reducer_missing_payload_throws :
    reducer emptyLayout { type := GRAPH_SIZE_SET } = .error .typeError := rfl

/-- C3 amended: the reducer yields a state (never an error) whenever any
recognized set-action carries a payload object — a payload object with
*missing fields* is fine: the transition stores undefined fields rather
than failing — and the selectors yield a value (never an error) whenever
the layout namespace is present in the state; a recognized set-action
whose payload property is entirely missing, however, throws, as does a
selector applied to a state without the layout namespace. The position
calculator and the action creators are total. -/
theorem operations_total_with_payload :
    (∀ s a, (a.type = GRAPH_SIZE_SET ∨ a.type = GRAPH_SELECTION_RECT_SET ∨
        a.type = VIEWPORT_SET → a.payload.isSome) →
      ∃ t, reducer s a = .ok t)
    ∧ (∀ s, reducer s { type := GRAPH_SIZE_SET, payload := some {} } =
        .ok { s with graphSize := .val { width := .undef, height := .undef } })
    ∧ (∀ g : GlobalState, g.layout.isVal = true →
        (∃ v, getContainerSize g = .ok v) ∧ (∃ v, getViewport g = .ok v) ∧
        (∃ v, getSelectionRect g = .ok v)) := by
  refine ⟨?_, fun s => reducer_eval_sizeSet s {}, ?_⟩
  · intro s a hpay
    obtain ⟨ty, pl⟩ := a
    by_cases h1 : ty = GRAPH_SIZE_SET
    · subst h1
      obtain ⟨p, rfl⟩ := Option.isSome_iff_exists.mp (hpay (Or.inl rfl))
      exact ⟨_, reducer_eval_sizeSet s p⟩
    · by_cases h2 : ty = GRAPH_SELECTION_RECT_SET
      · subst h2
        obtain ⟨p, rfl⟩ := Option.isSome_iff_exists.mp (hpay (Or.inr (Or.inl rfl)))
        exact ⟨_, reducer_eval_rectSet s p⟩
      · by_cases h3 : ty = GRAPH_SELECTION_RECT_CLEAR
        · subst h3
          exact ⟨_, reducer_eval_rectClear s pl⟩
        · by_cases h4 : ty = VIEWPORT_SET
          · subst h4
            obtain ⟨p, rfl⟩ := Option.isSome_iff_exists.mp
              (hpay (Or.inr (Or.inr rfl)))
            exact ⟨_, reducer_eval_viewportSet s p⟩
          · by_cases h5 : ty = VIEWPORT_RESET
            · subst h5
              exact ⟨_, reducer_eval_viewportReset s pl⟩
            · exact ⟨s, reducer_eval_unknown s ⟨ty, pl⟩ h1 h2 h3 h4 h5⟩
  · intro g hg
    obtain ⟨gl⟩ := g
    match gl with
    | .val l => exact ⟨⟨_, rfl⟩, ⟨_, rfl⟩, ⟨_, rfl⟩⟩
    | .undef => simp [JSOpt.isVal] at hg
    | .null => simp [JSOpt.isVal] at hg

/-- Witness for the amended C3: a size action whose payload object misses
both fields stores undefined fields, and the selectors succeed on a state
whose layout namespace is present but empty. -/
theorem operations_total_with_payload_witness :
    reducer emptyLayout { type := GRAPH_SIZE_SET, payload := some {} } =
      .ok { emptyLayout with
            graphSize := .val { width := .undef, height := .undef } }
    ∧ (∃ v, getContainerSize { layout := .val emptyLayout } = .ok v) :=
  ⟨operations_total_with_payload.2.1 emptyLayout,
   (operations_total_with_payload.2.2 { layout := .val emptyLayout } rfl).1⟩

/-- C4 counterexample: the claim asserts `getContainerSize` returns the
default width 0, height 0 on every state where the size is unset,
including the empty state; on the literal empty state (no layout
namespace) the `state[MOUNT_POINT].graphSize` access in fact throws a
`TypeError` instead. -/
theorem getContainerSize_empty_throws :
    getContainerSize { layout := .undef } = .error .typeError
    ∧ getContainerSize { layout := .undef } ≠
        .ok { width := .num 0, height := .num 0 } := by
  exact ⟨rfl, by simp [getContainerSize]⟩

/-- C4 amended: on every state whose layout namespace is present but whose
graphSize is not set (undefined or null), `getContainerSize` returns the
default width 0, height 0; on the literal empty state it throws. -/
theorem getContainerSize_default (l : LayoutState)
    (h : l.graphSize.isAbsent = true) :
    getContainerSize { layout := .val l } =
      .ok { width := .num 0, height := .num 0 } := by
  match hg : l.graphSize with
  | .undef => simp [getContainerSize, hg]
  | .null => simp [getContainerSize, hg]
  | .val g => simp [JSOpt.isAbsent, hg] at h

/-- Witness for the amended C4 at the initial reducer state. -/
theorem getContainerSize_default_witness :
    getContainerSize { layout := .val emptyLayout } =
      .ok { width := .num 0, height := .num 0 } :=
  getContainerSize_default emptyLayout rfl

/-- C8: for every prior state and recognized action, whenever the reducer
yields a result it carries over every field other than the one targeted by
the action unchanged: set-container-size leaves selectionRect and viewport
as they were; set/clear-selection-rect leaves graphSize and viewport;
set/reset-viewport leaves graphSize and selectionRect. (Mutation of the
input is not representable: the embedded reducer is a pure function
returning a new value, mirroring the spread-based copies of the source.) -/
theorem reducer_frame (s : LayoutState) (a : Action) :
    (a.type = GRAPH_SIZE_SET → ∀ t, reducer s a = .ok t →
      t.selectionRect = s.selectionRect ∧ t.viewport = s.viewport)
    ∧ ((a.type = GRAPH_SELECTION_RECT_SET ∨
        a.type = GRAPH_SELECTION_RECT_CLEAR) → ∀ t, reducer s a = .ok t →
      t.graphSize = s.graphSize ∧ t.viewport = s.viewport)
    ∧ ((a.type = VIEWPORT_SET ∨ a.type = VIEWPORT_RESET) →
      ∀ t, reducer s a = .ok t →
      t.graphSize = s.graphSize ∧ t.selectionRect = s.selectionRect) := by
  obtain ⟨ty, pl⟩ := a
  refine ⟨?_, ?_, ?_⟩
  · rintro rfl t ht
    cases pl with
    | none => rw [reducer_eval_sizeSet_noPayload] at ht; exact absurd ht (by simp)
    | some p =>
      rw [reducer_eval_sizeSet] at ht
      obtain rfl := (Except.ok.injEq _ _).mp ht
      exact ⟨rfl, rfl⟩
  · rintro (rfl | rfl) t ht
    · cases pl with
      | none => rw [reducer_eval_rectSet_noPayload] at ht; exact absurd ht (by simp)
      | some p =>
        rw [reducer_eval_rectSet] at ht
        obtain rfl := (Except.ok.injEq _ _).mp ht
        exact ⟨rfl, rfl⟩
    · rw [reducer_eval_rectClear] at ht
      obtain rfl := (Except.ok.injEq _ _).mp ht
      exact ⟨rfl, rfl⟩
  · rintro (rfl | rfl) t ht
    · cases pl with
      | none => rw [reducer_eval_viewportSet_noPayload] at ht; exact absurd ht (by simp)
      | some p =>
        rw [reducer_eval_viewportSet] at ht
        obtain rfl := (Except.ok.injEq _ _).mp ht
        exact ⟨rfl, rfl⟩
    · rw [reducer_eval_viewportReset] at ht
      obtain rfl := (Except.ok.injEq _ _).mp ht
      exact ⟨rfl, rfl⟩

/-- Witness for C8: a clear-selection-rect transition from a fully
populated state leaves graphSize and viewport untouched. -/
theorem reducer_frame_witness :
    ∃ t, reducer
        { graphSize := .val { width := JSVal.num 3, height := JSVal.num 4 },
          selectionRect := .val { top := JSVal.num 1, left := JSVal.num 1,
                                  bottom := JSVal.num 2, right := JSVal.num 2 },
          viewport := .null }
        { type := GRAPH_SELECTION_RECT_CLEAR } = .ok t
      ∧ t.graphSize = .val { width := JSVal.num 3, height := JSVal.num 4 }
      ∧ t.viewport = .null := by
  refine ⟨_, reducer_eval_rectClear _ none, ?_⟩
  exact (reducer_frame
    { graphSize := .val { width := JSVal.num 3, height := JSVal.num 4 },
      selectionRect := .val { top := JSVal.num 1, left := JSVal.num 1,
                              bottom := JSVal.num 2, right := JSVal.num 2 },
      viewport := .null }
    { type := GRAPH_SELECTION_RECT_CLEAR }).2.1 (Or.inr rfl) _
    (reducer_eval_rectClear _ none)

/-- C10: for every state, applying the reducer with the action produced by
`setViewport` yields a state on which `getViewport` returns exactly the
given start and end dates; the analogous round trip holds for
`setSelectionRect` and `getSelectionRect`; and each action creator emits a
payload containing exactly its named fields, discarding any extra
properties of its argument. -/
theorem creators_reducer_selectors_roundtrip :
    (∀ (s : LayoutState) (o : PayloadObj), ∃ t,
      reducer s (setViewport o) = .ok t
      ∧ getViewport { layout := .val t } =
          .ok (.val { startDate := o.startDate, endDate := o.endDate }))
    ∧ (∀ (s : LayoutState) (o : PayloadObj), ∃ t,
      reducer s (setSelectionRect o) = .ok t
      ∧ getSelectionRect { layout := .val t } =
          .ok (.val { top := o.top, left := o.left, bottom := o.bottom,
                      right := o.right }))
    ∧ (∀ o : PayloadObj, (setViewport o).payload =
        some { startDate := o.startDate, endDate := o.endDate })
    ∧ (∀ o : PayloadObj, (setSelectionRect o).payload =
        some { top := o.top, left := o.left, bottom := o.bottom,
               right := o.right })
    ∧ (∀ o : PayloadObj, (setContainerSize o).payload =
        some { width := o.width, height := o.height })
    ∧ (∀ o q : PayloadObj, o.startDate = q.startDate → o.endDate = q.endDate →
        setViewport o = setViewport q)
    ∧ (∀ o q : PayloadObj, o.top = q.top → o.left = q.left →
        o.bottom = q.bottom → o.right = q.right →
        setSelectionRect o = setSelectionRect q)
    ∧ (∀ o q : PayloadObj, o.width = q.width → o.height = q.height →
        setContainerSize o = setContainerSize q) := by
  refine ⟨fun s o => ⟨_, rfl, rfl⟩, fun s o => ⟨_, rfl, rfl⟩,
    fun o => rfl, fun o => rfl, fun o => rfl, ?_, ?_, ?_⟩
  · intro o q h1 h2
    simp only [setViewport, h1, h2]
  · intro o q h1 h2 h3 h4
    simp only [setSelectionRect, h1, h2, h3, h4]
  · intro o q h1 h2
    simp only [setContainerSize, h1, h2]

/-- Witness for C10: two argument objects agreeing on startDate and
endDate but differing in extra properties produce the very same
`setViewport` action. -/
theorem creators_reducer_selectors_roundtrip_witness :
    setViewport { startDate := JSVal.str "2017-01-01",
                  endDate := JSVal.str "2018-01-01",
                  width := JSVal.num 1 } =
      setViewport { startDate := JSVal.str "2017-01-01",
                    endDate := JSVal.str "2018-01-01",
                    top := JSVal.num 9 } :=
  creators_reducer_selectors_roundtrip.2.2.2.2.2.1
    { startDate := JSVal.str "2017-01-01", endDate := JSVal.str "2018-01-01",
      width := JSVal.num 1 }
    { startDate := JSVal.str "2017-01-01", endDate := JSVal.str "2018-01-01",
      top := JSVal.num 9 } rfl rfl

/-- C7: for every domain and container size, the scale built by
`getScaleX` exposes the given domain and the range from 0 to the container
width, and the scale built by `getScaleY` exposes the given domain and the
range from 0 to the container height; both constructors are pure functions
of their two inputs (equal inputs give equal scales). -/
theorem scales_domain_range (a b : ℚ) (s : ContainerSize) :
    (getScaleX (a, b) s).domain = (a, b)
    ∧ (getScaleX (a, b) s).range = (0, s.width)
    ∧ (getScaleY (a, b) s).domain = (a, b)
    ∧ (getScaleY (a, b) s).range = (0, s.height)
    ∧ (∀ d2 s2, d2 = (a, b) → s2 = s →
        getScaleX d2 s2 = getScaleX (a, b) s
        ∧ getScaleY d2 s2 = getScaleY (a, b) s) := by
  refine ⟨rfl, rfl, rfl, rfl, ?_⟩
  rintro d2 s2 rfl rfl
  exact ⟨rfl, rfl⟩

/-- Witness for C7 at the domain 0 to 100 and the size 50 by 60, matching
the concrete expectations of the test file. -/
theorem scales_domain_range_witness :
    (getScaleX (0, 100) { width := 50, height := 60 }).domain = (0, 100)
    ∧ (getScaleX (0, 100) { width := 50, height := 60 }).range = (0, 50)
    ∧ getScaleY (0, 100) { width := 50, height := 60 } =
        getScaleY (0, 100) { width := 50, height := 60 } :=
  ⟨(scales_domain_range 0 100 { width := 50, height := 60 }).1,
   (scales_domain_range 0 100 { width := 50, height := 60 }).2.1,
   ((scales_domain_range 0 100 { width := 50, height := 60 }).2.2.2.2
     (0, 100) { width := 50, height := 60 } rfl rfl).2⟩

/-- After any outer-cache miss, the outer slot holds the identifier of
the current state paired with the returned result. -/
theorem selectorMiss_outer (ct : String) (cell : SelCell) (ctr : ℕ)
    (s : Ref StateR) :
    (selectorMiss ct cell ctr s).2.1.outer =
      some (s.id, (selectorMiss ct cell ctr s).1) := by
  rcases cell with ⟨outer, inner⟩
  rcases hg : s.val.graphSize with _ | g <;>
    rcases inner with _ | ⟨gid, ri⟩ <;>
      simp [selectorMiss, getContainerSizeR, hg] <;> split_ifs <;> simp

/-- After any selector call, the outer slot holds the identifier of
the current state paired with the returned result. -/
theorem selectorCall_outer (ct : String) (cell : SelCell) (ctr : ℕ)
    (s : Ref StateR) :
    (selectorCall ct cell ctr s).2.1.outer =
      some (s.id, (selectorCall ct cell ctr s).1) := by
  rcases houter : cell.outer with _ | ⟨sid, r⟩
  · simp [selectorCall, houter, selectorMiss_outer]
  · by_cases h : sid = s.id
    · subst h
      simp [selectorCall, houter]

    · simp [selectorCall, houter, h, selectorMiss_outer]

/-- C9 counterexample: the claim says the position selector recomputes
only when the container size changes by value (shallow comparison of width
and height) and that two calls with an unchanged size return the identical
cached instance; in fact `reselect` compares by reference: two states
holding value-equal but distinct size objects (width 100, height 50 in
both) make the second call allocate a new result instance. -/
theorem selector_recomputes_on_equal_value :
    (let s1 : Ref StateR :=
      { id := 0, val :=
        { graphSize := some { id := 1, val := { width := 100, height := 50 } } } }
     let s2 : Ref StateR :=
      { id := 2, val :=
        { graphSize := some { id := 3, val := { width := 100, height := 50 } } } }
     let p1 := selectorCall "main" {} 10 s1
     let p2 := selectorCall "main" p1.2.1 p1.2.2 s2
     Option.map (fun g => g.val) s1.val.graphSize =
       Option.map (fun g => g.val) s2.val.graphSize
     ∧ p2.1.id ≠ p1.1.id) := by
  constructor
  · rfl
  · decide

/-- C9 amended: the memoization is by reference, not by shallow value:
(1) a repeated call with the very same state reference returns the
identical cached result instance and leaves the cache unchanged; (2) a
call on a different state reference whose `graphSize` is the same object
also returns the identical cached instance (inner cache, `===` on the
dependency result); (3) a state holding a different size object — in
particular any changed size — makes the selector compute a fresh result
instance; (4) requesting the position function for the same panel
identifier twice yields the same underlying function instance
(`fast-memoize` keyed on the identifier). -/
theorem chartPosition_memoization_by_reference :
    (∀ (ct : String) (cell : SelCell) (ctr : ℕ) (s : Ref StateR) r cell2 ctr2,
      selectorCall ct cell ctr s = (r, cell2, ctr2) →
      selectorCall ct cell2 ctr2 s = (r, cell2, ctr2))
    ∧ (∀ (ct : String) (ctr : ℕ) (s1 s2 : Ref StateR) (g : Ref ContainerSize),
      s1.val.graphSize = some g → s2.val.graphSize = some g →
      (selectorCall ct (selectorCall ct {} ctr s1).2.1
        (selectorCall ct {} ctr s1).2.2 s2).1 = (selectorCall ct {} ctr s1).1)
    ∧ (∀ (ct : String) (ctr : ℕ) (s1 s2 : Ref StateR)
        (g1 g2 : Ref ContainerSize),
      s1.val.graphSize = some g1 → s2.val.graphSize = some g2 →
      g1.id ≠ g2.id → s1.id ≠ s2.id →
      (selectorCall ct (selectorCall ct {} ctr s1).2.1
          (selectorCall ct {} ctr s1).2.2 s2).1.id ≠
        (selectorCall ct {} ctr s1).1.id
      ∧ (selectorCall ct (selectorCall ct {} ctr s1).2.1
          (selectorCall ct {} ctr s1).2.2 s2).1.val =
          chartPosition ct g2.val)
    ∧ (∀ (cache : List (String × ℕ)) (ctr : ℕ) (ct : String),
      getChartPositionCall (getChartPositionCall cache ctr ct).2.1
          (getChartPositionCall cache ctr ct).2.2 ct =
        ((getChartPositionCall cache ctr ct).1,
         (getChartPositionCall cache ctr ct).2.1,
         (getChartPositionCall cache ctr ct).2.2)) := by
  refine ⟨?_, ?_, ?_, ?_⟩
  · intro ct cell ctr s r cell2 ctr2 h
    have ho := selectorCall_outer ct cell ctr s
    rw [h] at ho
    simp only [] at ho
    simp [selectorCall, ho]
  · intro ct ctr s1 s2 g hg1 hg2
    have h1 : selectorCall ct {} ctr s1 =
        ({ id := ctr, val := chartPosition ct g.val },
         { outer := some (s1.id, { id := ctr, val := chartPosition ct g.val }),
           inner := some (g.id, { id := ctr, val := chartPosition ct g.val }) },
         ctr + 1) := by
      simp [selectorCall, selectorMiss, getContainerSizeR, hg1]
    rw [h1]
    by_cases hs : s1.id = s2.id
    · simp [selectorCall, hs]
    · simp [selectorCall, selectorMiss, getContainerSizeR, hg2, hs]
  · intro ct ctr s1 s2 g1 g2 hg1 hg2 hneq hs
    have h1 : selectorCall ct {} ctr s1 =
        ({ id := ctr, val := chartPosition ct g1.val },
         { outer := some (s1.id, { id := ctr, val := chartPosition ct g1.val }),
           inner := some (g1.id, { id := ctr, val := chartPosition ct g1.val }) },
         ctr + 1) := by
      simp [selectorCall, selectorMiss, getContainerSizeR, hg1]
    rw [h1]
    simp [selectorCall, selectorMiss, getContainerSizeR, hg2, hs, hneq]
  · intro cache ctr ct
    rcases hm : memoLookup cache ct with _ | fid
    · simp [getChartPositionCall, hm, memoLookup]
    · simp [getChartPositionCall, hm]

/-- Witness for the amended C9: a repeated call with the same state
reference returns the identical cached instance and leaves the cache
unchanged, at a concrete state and cache. -/
theorem chartPosition_memoization_by_reference_witness :
    selectorCall "main"
        { outer := some (0,
            { id := 10, val := chartPosition "main" { width := 100, height := 50 } }),
          inner := some (1,
            { id := 10, val := chartPosition "main" { width := 100, height := 50 } }) }
        11
        { id := 0, val :=
          { graphSize := some { id := 1, val := { width := 100, height := 50 } } } } =
      ({ id := 10, val := chartPosition "main" { width := 100, height := 50 } },
       { outer := some (0,
           { id := 10, val := chartPosition "main" { width := 100, height := 50 } }),
         inner := some (1,
           { id := 10, val := chartPosition "main" { width := 100, height := 50 } }) },
       11) :=
  chartPosition_memoization_by_reference.1 "main" {} 10
    { id := 0, val :=
      { graphSize := some { id := 1, val := { width := 100, height := 50 } } } }
    _ _ _ rfl

end GraphLayout
